import Mathlib

/-
Verification of the ZTF light-curve analysis core (`ztf_analysis.py`).

Numeric model: Python floats are embedded as rationals (ℚ), so every
arithmetic fact below is about the ideal real-number algorithm the code
implements.  Division by zero in ℚ yields 0; every place where that could
matter is guarded by the same conditions the source checks.
-/

/-- A light curve as produced by `query_ztf_lightcurve`: the dictionary
with keys `g`, `r`, `times_g`, `times_r` (magnitudes and MJD timestamps
per band). -/
structure LightCurve where
  g : List ℚ
  r : List ℚ
  times_g : List ℚ
  times_r : List ℚ
  deriving DecidableEq

/-- Mean of a list of rationals (`np.mean`); 0 on the empty list, which the
source never hits because every use is guarded by a non-emptiness check. -/
def listMean (l : List ℚ) : ℚ := l.sum / l.length

/-- Minimum of a list (`np.min` / `.min()`); 0 on the empty list (guarded). -/
def listMin : List ℚ → ℚ
  | [] => 0
  | x :: xs => xs.foldl min x

/-- Maximum of a list (`np.max` / `.max()`); 0 on the empty list (guarded). -/
def listMax : List ℚ → ℚ
  | [] => 0
  | x :: xs => xs.foldl max x

/-- Population variance, i.e. the square of `np.std`.  The square root of a
rational is not rational, so the embedding carries the variance; the claims
use only whether this statistic is present (NaN iff the band is empty),
which coincides. -/
def listVar (l : List ℚ) : ℚ :=
  listMean (l.map (fun x => (x - listMean l) * (x - listMean l)))

/-- Slope of the degree-1 least-squares fit `np.polyfit(xs, ys, 1)[0]`:
(n·Σxy − Σx·Σy) / (n·Σx² − (Σx)²). -/
def olsSlope (xs ys : List ℚ) : ℚ :=
  ((xs.length : ℚ) * ((xs.zip ys).map (fun p => p.1 * p.2)).sum - xs.sum * ys.sum) /
    ((xs.length : ℚ) * (xs.map (fun x => x * x)).sum - xs.sum * xs.sum)

/-- The denominator of the least-squares slope, n·Σx² − (Σx)²;
nonzero exactly when the fit is nondegenerate. -/
def olsDenom (xs : List ℚ) : ℚ :=
  (xs.length : ℚ) * (xs.map (fun x => x * x)).sum - xs.sum * xs.sum

/-- `np.linspace a b num`: `num` evenly spaced points from `a` to `b`
inclusive. -/
def linspace (a b : ℚ) (num : ℕ) : List ℚ :=
  if num = 1 then [a]
  else (List.range num).map (fun i : ℕ => a + (b - a) * (i : ℚ) / ((num : ℚ) - 1))

/-- Ordered insertion of a (time, magnitude) point by time. -/
def insertPt (p : ℚ × ℚ) : List (ℚ × ℚ) → List (ℚ × ℚ)
  | [] => [p]
  | q :: qs => if p.1 ≤ q.1 then p :: q :: qs else q :: insertPt p qs

/-- Sort (time, magnitude) points by time, as `interp1d` does internally
when the abscissae are not given sorted. -/
def sortPts : List (ℚ × ℚ) → List (ℚ × ℚ)
  | [] => []
  | p :: ps => insertPt p (sortPts ps)

/-- Evaluate the piecewise-linear interpolant through a time-sorted point
list at `t`, extrapolating with the first (resp. last) segment below
(resp. above) the data range — the behaviour of
`interp1d(..., kind='linear', fill_value='extrapolate')`. -/
def interpPoints (t : ℚ) : List (ℚ × ℚ) → ℚ
  | [] => 0
  | [p] => p.2
  | p :: q :: rest =>
    if t ≤ q.1 ∨ rest = [] then p.2 + (t - p.1) * (q.2 - p.2) / (q.1 - p.1)
    else interpPoints t (q :: rest)

/-- The linear interpolant `interp1d(xs, ys, kind='linear',
fill_value='extrapolate')` evaluated at `t`. -/
def interpLinear (xs ys : List ℚ) (t : ℚ) : ℚ :=
  interpPoints t (sortPts (xs.zip ys))

/-- Ordered insertion of a rational (for `np.sort`). -/
def insertQ (x : ℚ) : List ℚ → List ℚ
  | [] => [x]
  | y :: ys => if x ≤ y then x :: y :: ys else y :: insertQ x ys

/-- Sort a list of rationals ascending (`np.sort`). -/
def sortQ : List ℚ → List ℚ
  | [] => []
  | x :: xs => insertQ x (sortQ xs)

/-- Result of `analyze_brightness`.  Numeric fields are `Option ℚ`, with
`none` standing for the NaN the source stores when the band is empty. -/
structure BrightnessResult where
  r_mean : Option ℚ
  r_min : Option ℚ
  r_std : Option ℚ
  g_mean : Option ℚ
  g_min : Option ℚ
  priority : String
  deriving DecidableEq

/-- The spectroscopy-priority ladder of `analyze_brightness`: the first
matching threshold on the r-band mean magnitude wins. -/
def priorityOf (r_mean : ℚ) : String :=
  if r_mean < 15.5 then "HIGH"
  else if r_mean < 16.5 then "MEDIUM"
  else if r_mean < 17.0 then "LOW"
  else "TOO_FAINT"

/-- Embedding of `ZTFAnalyzer.analyze_brightness` (ztf_analysis.py
lines 147-193). -/
def analyze_brightness (lc : Option LightCurve) : Option BrightnessResult :=
  match lc with
  | none => none
  | some lc =>
    some { r_mean := if 0 < lc.r.length then some (listMean lc.r) else none
           r_min := if 0 < lc.r.length then some (listMin lc.r) else none
           r_std := if 0 < lc.r.length then some (listVar lc.r) else none
           g_mean := if 0 < lc.g.length then some (listMean lc.g) else none
           g_min := if 0 < lc.g.length then some (listMin lc.g) else none
           priority := if 0 < lc.r.length then priorityOf (listMean lc.r) else "UNKNOWN" }

/-- The constant status string of the fading branch of `analyze_fading`. -/
def fadingLabel : String := "FADING (brightening in mag = getting dimmer)"

/-- The constant status string of the brightening branch of
`analyze_fading`. -/
def brighteningLabel : String := "BRIGHTENING (dimming in mag = getting brighter)"

/-- The status chain of `analyze_fading` (lines 224-229): the dead zone
first, then the `slope > 0.0001` test, else the brightening label. -/
def fadingStatusOf (slope : ℚ) : String :=
  if |slope| < 0.0001 then "STABLE"
  else if slope > 0.0001 then fadingLabel
  else brighteningLabel

/-- Result of `analyze_fading`. -/
structure FadingResult where
  slope_mag_per_day : ℚ
  mag_change_1yr : ℚ
  is_fading : Bool
  status : String
  n_observations : ℕ
  deriving DecidableEq

/-- Embedding of `ZTFAnalyzer.analyze_fading` (ztf_analysis.py
lines 195-237). -/
def analyze_fading (lc : Option LightCurve) : Option FadingResult :=
  match lc with
  | none => none
  | some lc =>
    if lc.r.length < 5 then none
    else
      some { slope_mag_per_day := olsSlope lc.times_r lc.r
             mag_change_1yr := olsSlope lc.times_r lc.r * 365
             is_fading := decide (olsSlope lc.times_r lc.r * 365 > 0.2)
             status := fadingStatusOf (olsSlope lc.times_r lc.r)
             n_observations := lc.r.length }

/-- Status of `analyze_color_evolution`.  The source builds strings; the
reddening label shows `+` followed by the absolute annualized change and
the blueing label shows the signed annualized change, so the embedding
carries exactly that number as the constructor payload.  `UNKNOWN` is the
orchestrator's sentinel for an absent color result. -/
inductive ColorStatus where
  | STABLE : ColorStatus
  | REDDENING : ℚ → ColorStatus
  | BLUEING : ℚ → ColorStatus
  | UNKNOWN : ColorStatus
  deriving DecidableEq

/-- The status chain of `analyze_color_evolution` (lines 292-297). -/
def colorStatusOf (slope chg : ℚ) : ColorStatus :=
  if |slope| < 0.0001 then ColorStatus.STABLE
  else if slope > 0.0001 then ColorStatus.REDDENING |chg|
  else ColorStatus.BLUEING chg

/-- Result of `analyze_color_evolution`. -/
structure ColorEvolutionResult where
  mean_color_gr : ℚ
  color_slope_per_day : ℚ
  color_change_1yr : ℚ
  is_significant_evolution : Bool
  status : ColorStatus
  baseline_days : ℚ
  deriving DecidableEq

/-- Start of the usable time window: `max(times_g.min(), times_r.min())`. -/
def commonStart (lc : LightCurve) : ℚ := max (listMin lc.times_g) (listMin lc.times_r)

/-- End of the usable time window: `min(times_g.max(), times_r.max())`. -/
def commonEnd (lc : LightCurve) : ℚ := min (listMax lc.times_g) (listMax lc.times_r)

/-- The common time grid
`np.linspace(min_time, max_time, min(len(mags_g), len(mags_r)))`. -/
def commonGrid (lc : LightCurve) : List ℚ :=
  linspace (commonStart lc) (commonEnd lc) (min lc.g.length lc.r.length)

/-- The g−r color series: both bands interpolated onto the common grid and
subtracted pointwise. -/
def colorSeries (lc : LightCurve) : List ℚ :=
  List.zipWith (fun a b => a - b)
    ((commonGrid lc).map (interpLinear lc.times_g lc.g))
    ((commonGrid lc).map (interpLinear lc.times_r lc.r))

/-- Embedding of `ZTFAnalyzer.analyze_color_evolution` (ztf_analysis.py
lines 239-309).  The interpolation step is total here, mirroring that
`interp1d` with ≥3 points and linear kind raises nothing, so the source's
`try/except` fallback to `None` has no reachable failure case. -/
def analyze_color_evolution (lc : Option LightCurve) : Option ColorEvolutionResult :=
  match lc with
  | none => none
  | some lc =>
    if lc.g.length < 3 ∨ lc.r.length < 3 then none
    else if commonEnd lc - commonStart lc < 100 then none
    else
      some { mean_color_gr := listMean (colorSeries lc)
             color_slope_per_day := olsSlope (commonGrid lc) (colorSeries lc)
             color_change_1yr := olsSlope (commonGrid lc) (colorSeries lc) * 365
             is_significant_evolution :=
               decide (|olsSlope (commonGrid lc) (colorSeries lc) * 365| > 0.1)
             status := colorStatusOf (olsSlope (commonGrid lc) (colorSeries lc))
               (olsSlope (commonGrid lc) (colorSeries lc) * 365)
             baseline_days := commonEnd lc - commonStart lc }

/-- One filtered catalog record as consumed by `analyze_source`
(the fields it reads from `source_dict`). -/
structure SourceRecord where
  Objname : String
  RAdeg : ℚ
  DEdeg : ℚ
  yso_cls : String
  W2magMean : Option ℚ
  deriving DecidableEq

/-- The unified per-source output record of `analyze_source`.  `Option`
numeric fields model NaN sentinels; `yso_cls` is the source's
`YSO_CLASS` column. -/
structure SourceAnalysis where
  Objname : String
  RAdeg : ℚ
  DEdeg : ℚ
  yso_cls : String
  W2magMean : Option ℚ
  r_mean : Option ℚ
  r_priority : String
  fading_mag_per_year : Option ℚ
  is_fading : Bool
  fading_status : String
  color_change_1yr : Option ℚ
  is_reddening_bluing : Bool
  color_status : ColorStatus
  baseline_days : Option ℚ
  deriving DecidableEq

/-- The record assembly of `analyze_source` (ztf_analysis.py
lines 325-351): copy the identifying catalog fields through, run the
three analyzers on the acquired light curve independently, and default
each absent analyzer output to its explicit sentinel (NaN as `none`,
the `UNKNOWN` token, `false`). -/
def assembleAnalysis (src : SourceRecord) (lc : LightCurve) : SourceAnalysis :=
  { Objname := src.Objname
    RAdeg := src.RAdeg
    DEdeg := src.DEdeg
    yso_cls := src.yso_cls
    W2magMean := src.W2magMean
    r_mean := match analyze_brightness (some lc) with
      | some b => b.r_mean
      | none => none
    r_priority := match analyze_brightness (some lc) with
      | some b => b.priority
      | none => "UNKNOWN"
    fading_mag_per_year := match analyze_fading (some lc) with
      | some f => some f.mag_change_1yr
      | none => none
    is_fading := match analyze_fading (some lc) with
      | some f => f.is_fading
      | none => false
    fading_status := match analyze_fading (some lc) with
      | some f => f.status
      | none => "UNKNOWN"
    color_change_1yr := match analyze_color_evolution (some lc) with
      | some c => some c.color_change_1yr
      | none => none
    is_reddening_bluing := match analyze_color_evolution (some lc) with
      | some c => c.is_significant_evolution
      | none => false
    color_status := match analyze_color_evolution (some lc) with
      | some c => c.status
      | none => ColorStatus.UNKNOWN
    baseline_days := match analyze_color_evolution (some lc) with
      | some c => some c.baseline_days
      | none => none }

/-- Embedding of `ZTFAnalyzer.analyze_source` (ztf_analysis.py
lines 311-351).  The light-curve acquisition collaborator is passed in as
the function `query`, standing for `self.query_ztf_lightcurve`; a falsy
(`None`) query outcome makes the whole per-source analysis absent. -/
def analyze_source (query : ℚ → ℚ → String → Option LightCurve)
    (src : SourceRecord) : Option SourceAnalysis :=
  match query src.RAdeg src.DEdeg src.Objname with
  | none => none
  | some lc => some (assembleAnalysis src lc)

/-- Abstract model of the numpy seeded random machinery and of the other
external numeric primitives `_generate_synthetic_lc` uses.  Each draw is a
pure function of the seed, the call arguments, the position of the call in
the body and (for vector draws) the element index, which is exactly the
determinism numpy guarantees after `np.random.seed(seed)`. -/
structure NumpyModel where
  pyHash : String → ℕ
  randint : ℕ → ℕ → ℕ → ℕ → ℕ
  uniform : ℕ → ℚ → ℚ → ℕ → ℕ → ℚ
  normal : ℕ → ℚ → ℚ → ℕ → ℕ → ℚ
  sinQ : ℚ → ℚ
  piQ : ℚ

/-- The seed `hash(object_name) % 2**32` of line 112. -/
def seedOf (M : NumpyModel) (object_name : String) : ℕ :=
  M.pyHash object_name % 2 ^ 32

/-- Embedding of `ZTFAnalyzer._generate_synthetic_lc` (ztf_analysis.py
lines 102-145).  `ra` and `dec` are accepted but unused, as in the source. -/
def _generate_synthetic_lc (M : NumpyModel) (object_name : String)
    (ra dec : ℚ) : LightCurve :=
  let seed := seedOf M object_name
  let n_obs_per_band := M.randint seed 30 150 0
  let times_g := sortQ ((List.range n_obs_per_band).map (fun i => M.uniform seed 58000 59000 1 i))
  let times_r := sortQ ((List.range n_obs_per_band).map (fun i => M.uniform seed 58000 59000 2 i))
  let base_r_mag := M.uniform seed 13 17.5 3 0
  let base_g_mag := base_r_mag - M.uniform seed (-0.2) 0.5 4 0
  let variability_amp := M.uniform seed 0.1 1.5 5 0
  let noise_g := (List.range n_obs_per_band).map (fun i => M.normal seed 0 0.1 6 i)
  let noise_r := (List.range n_obs_per_band).map (fun i => M.normal seed 0 0.1 7 i)
  let fade_trend := M.uniform seed (-0.003) 0.002 8 0
  let fade_g := times_g.map (fun t => fade_trend * (t - times_g.headD 0))
  let fade_r := times_r.map (fun t => fade_trend * (t - times_r.headD 0))
  let period_g := M.uniform seed 10 100 9 0
  let period_r := M.uniform seed 10 100 10 0
  let periodic_component_g := times_g.map (fun t => variability_amp * M.sinQ (2 * M.piQ * t / period_g))
  let periodic_component_r := times_r.map (fun t => variability_amp * M.sinQ (2 * M.piQ * t / period_r))
  let mags_g := List.zipWith (fun a b => a + b)
    (List.zipWith (fun a b => a + b) (periodic_component_g.map (fun x => base_g_mag + x)) fade_g)
    noise_g
  let mags_r := List.zipWith (fun a b => a + b)
    (List.zipWith (fun a b => a + b) (periodic_component_r.map (fun x => base_r_mag + x)) fade_r)
    noise_r
  { g := mags_g, r := mags_r, times_g := times_g, times_r := times_r }

/-- Embedding of `ZTFAnalyzer.query_ztf_lightcurve` (ztf_analysis.py
lines 39-81): `netResult` is the outcome of the live ZTF query (parsed
per-band data, or `none` when the library is missing, the request fails,
or the payload is unusable); on `none` the call falls back to the
seeded synthetic generator. -/
def query_ztf_lightcurve (M : NumpyModel) (netResult : Option LightCurve)
    (ra dec : ℚ) (object_name : String) : Option LightCurve :=
  match netResult with
  | some lc => some lc
  | none => some (_generate_synthetic_lc M object_name ra dec)

/-- Helper: the priority ladder yields HIGH exactly below 15.5. -/
theorem priorityOf_high_iff (m : ℚ) : priorityOf m = "HIGH" ↔ m < 15.5 := by
  unfold priorityOf
  split_ifs with h1 h2 h3
  · exact iff_of_true rfl h1
  · exact iff_of_false (by decide) h1
  · exact iff_of_false (by decide) h1
  · exact iff_of_false (by decide) h1

/-- Helper: the priority ladder yields MEDIUM exactly on [15.5, 16.5). -/
theorem priorityOf_medium_iff (m : ℚ) :
    priorityOf m = "MEDIUM" ↔ 15.5 ≤ m ∧ m < 16.5 := by
  unfold priorityOf
  split_ifs with h1 h2 h3
  · exact iff_of_false (by decide) (by intro h; linarith [h.1])
  · exact iff_of_true rfl ⟨le_of_not_lt h1, h2⟩
  · exact iff_of_false (by decide) (by intro h; exact h2 h.2)
  · exact iff_of_false (by decide) (by intro h; exact h2 h.2)

/-- Helper: the priority ladder yields LOW exactly on [16.5, 17.0). -/
theorem priorityOf_low_iff (m : ℚ) :
    priorityOf m = "LOW" ↔ 16.5 ≤ m ∧ m < 17.0 := by
  unfold priorityOf
  split_ifs with h1 h2 h3
  · exact iff_of_false (by decide) (by intro h; linarith [h.1])
  · exact iff_of_false (by decide) (by intro h; linarith [h.1])
  · exact iff_of_true rfl ⟨le_of_not_lt h2, h3⟩
  · exact iff_of_false (by decide) (by intro h; exact h3 h.2)

/-- Helper: the priority ladder yields TOO_FAINT exactly from 17.0 up. -/
theorem priorityOf_toofaint_iff (m : ℚ) :
    priorityOf m = "TOO_FAINT" ↔ 17.0 ≤ m := by
  unfold priorityOf
  split_ifs with h1 h2 h3
  · exact iff_of_false (by decide) (by intro h; linarith)
  · exact iff_of_false (by decide) (by intro h; linarith)
  · exact iff_of_false (by decide) (by intro h; linarith)
  · exact iff_of_true rfl (le_of_not_lt h3)

/-- Helper: the priority ladder never yields the UNKNOWN sentinel. -/
theorem priorityOf_ne_unknown (m : ℚ) : priorityOf m ≠ "UNKNOWN" := by
  unfold priorityOf
  split_ifs <;> decide

/-- Helper: the fading status is STABLE exactly inside the dead zone. -/
theorem fadingStatusOf_stable_iff (s : ℚ) :
    fadingStatusOf s = "STABLE" ↔ |s| < 0.0001 := by
  unfold fadingStatusOf
  split_ifs with h1 h2
  · exact iff_of_true rfl h1
  · exact iff_of_false (by decide) h1
  · exact iff_of_false (by decide) h1

/-- Helper: the fading label appears exactly for slopes strictly above
the 0.0001 cut used by the `elif`. -/
theorem fadingStatusOf_fading_iff (s : ℚ) :
    fadingStatusOf s = fadingLabel ↔ 0.0001 < s := by
  unfold fadingStatusOf
  split_ifs with h1 h2
  · exact iff_of_false (by decide) (by intro hgt; have := le_abs_self s; linarith)
  · exact iff_of_true rfl h2
  · exact iff_of_false (by decide) h2

/-- Helper: the brightening label appears exactly for slopes at or below
−0.0001 together with the boundary slope exactly 0.0001, which falls
through both preceding tests. -/
theorem fadingStatusOf_brightening_iff (s : ℚ) :
    fadingStatusOf s = brighteningLabel ↔ (s ≤ -0.0001 ∨ s = 0.0001) := by
  unfold fadingStatusOf
  split_ifs with h1 h2
  · refine iff_of_false (by decide) ?_
    rintro (hle | heq)
    · have := neg_abs_le s; linarith
    · rw [heq, abs_of_pos (by norm_num : (0 : ℚ) < 0.0001)] at h1
      exact absurd h1 (lt_irrefl _)
  · refine iff_of_false (by decide) ?_
    rintro (hle | heq) <;> linarith
  · refine iff_of_true rfl ?_
    rcases le_abs.mp (not_lt.mp h1) with h | h
    · right; have := not_lt.mp h2; linarith
    · left; linarith

/-- Helper: the color status is STABLE exactly inside the dead zone. -/
theorem colorStatusOf_stable_iff (s c : ℚ) :
    colorStatusOf s c = ColorStatus.STABLE ↔ |s| < 0.0001 := by
  unfold colorStatusOf
  split_ifs with h1 h2
  · exact iff_of_true rfl h1
  · exact iff_of_false (by simp) h1
  · exact iff_of_false (by simp) h1

/-- Helper: REDDENING appears exactly for slopes strictly above the
0.0001 cut used by the `elif`. -/
theorem colorStatusOf_reddening_iff (s c : ℚ) :
    colorStatusOf s c = ColorStatus.REDDENING |c| ↔ 0.0001 < s := by
  unfold colorStatusOf
  split_ifs with h1 h2
  · exact iff_of_false (by simp) (by intro hgt; have := le_abs_self s; linarith)
  · exact iff_of_true rfl h2
  · exact iff_of_false (by simp) h2

/-- Helper: BLUEING appears exactly for slopes at or below −0.0001
together with the boundary slope exactly 0.0001. -/
theorem colorStatusOf_blueing_iff (s c : ℚ) :
    colorStatusOf s c = ColorStatus.BLUEING c ↔ (s ≤ -0.0001 ∨ s = 0.0001) := by
  unfold colorStatusOf
  split_ifs with h1 h2
  · refine iff_of_false (by simp) ?_
    rintro (hle | heq)
    · have := neg_abs_le s; linarith
    · rw [heq, abs_of_pos (by norm_num : (0 : ℚ) < 0.0001)] at h1
      exact absurd h1 (lt_irrefl _)
  · refine iff_of_false (by simp) ?_
    rintro (hle | heq) <;> linarith
  · refine iff_of_true rfl ?_
    rcases le_abs.mp (not_lt.mp h1) with h | h
    · right; have := not_lt.mp h2; linarith
    · left; linarith

/-- Helper: `linspace` always has exactly the requested number of points. -/
theorem linspace_length (a b : ℚ) (num : ℕ) : (linspace a b num).length = num := by
  unfold linspace
  split_ifs with h
  · simp [h]
  · rw [List.length_map, List.length_range]

/-- Helper: sum of an affine image of a list. -/
theorem sum_map_affine (a b : ℚ) (xs : List ℚ) :
    (xs.map (fun x => a + b * x)).sum = a * xs.length + b * xs.sum := by
  induction xs with
  | nil => simp
  | cons x xs ih =>
    simp only [List.map_cons, List.sum_cons, ih, List.length_cons]
    push_cast
    ring

/-- Helper: sum of pointwise products of a list with an affine image of
itself. -/
theorem sum_zip_affine (a b : ℚ) (xs : List ℚ) :
    ((xs.zip (xs.map (fun x => a + b * x))).map (fun p => p.1 * p.2)).sum
      = a * xs.sum + b * (xs.map (fun x => x * x)).sum := by
  induction xs with
  | nil => simp
  | cons x xs ih =>
    simp only [List.map_cons, List.zip_cons_cons, List.sum_cons, ih]
    ring

/-- Helper: the degree-1 least-squares fit recovers the exact slope of
data lying on a line, whenever the fit is nondegenerate. -/
theorem olsSlope_affine (a b : ℚ) (xs : List ℚ) (hD : olsDenom xs ≠ 0) :
    olsSlope xs (xs.map (fun x => a + b * x)) = b := by
  have hnum : (xs.length : ℚ) *
        ((xs.zip (xs.map (fun x => a + b * x))).map (fun p => p.1 * p.2)).sum
        - xs.sum * (xs.map (fun x => a + b * x)).sum
      = b * olsDenom xs := by
    rw [sum_zip_affine, sum_map_affine]
    unfold olsDenom
    ring
  unfold olsSlope
  rw [hnum]
  show b * olsDenom xs / olsDenom xs = b
  rw [mul_div_assoc, div_self hD, mul_one]

/-- C3: for every light curve whose r band is non-empty, `analyze_brightness`
assigns the priority tier from the r-band mean magnitude m by first match
in ascending order — m < 15.5 HIGH, 15.5 ≤ m < 16.5 MEDIUM,
16.5 ≤ m < 17.0 LOW, m ≥ 17.0 TOO_FAINT — with each tier's upper bound
exclusive, so m = 15.5 gives MEDIUM and m = 17.0 gives TOO_FAINT. -/
theorem C3_brightness_priority_tiers (lc : LightCurve) (hne : 0 < lc.r.length) :
    ∃ res, analyze_brightness (some lc) = some res ∧
      res.priority = priorityOf (listMean lc.r) ∧
      (res.priority = "HIGH" ↔ listMean lc.r < 15.5) ∧
      (res.priority = "MEDIUM" ↔ 15.5 ≤ listMean lc.r ∧ listMean lc.r < 16.5) ∧
      (res.priority = "LOW" ↔ 16.5 ≤ listMean lc.r ∧ listMean lc.r < 17.0) ∧
      (res.priority = "TOO_FAINT" ↔ 17.0 ≤ listMean lc.r) ∧
      (listMean lc.r = 15.5 → res.priority = "MEDIUM") ∧
      (listMean lc.r = 17.0 → res.priority = "TOO_FAINT") := by
  refine ⟨_, rfl, ?_⟩
  have hp : (if 0 < lc.r.length then priorityOf (listMean lc.r) else "UNKNOWN")
      = priorityOf (listMean lc.r) := if_pos hne
  show (if 0 < lc.r.length then priorityOf (listMean lc.r) else "UNKNOWN")
      = priorityOf (listMean lc.r) ∧ _
  rw [hp]
  refine ⟨rfl, priorityOf_high_iff _, priorityOf_medium_iff _, priorityOf_low_iff _,
    priorityOf_toofaint_iff _, ?_, ?_⟩
  · intro hm
    rw [hm, priorityOf_medium_iff]
    norm_num
  · intro hm
    rw [hm, priorityOf_toofaint_iff]

/-- C3 witness: a one-sample light curve with r-band mean exactly 15.5 is
classified MEDIUM, not HIGH. -/
theorem C3_brightness_priority_tiers_witness :
    ∃ res, analyze_brightness (some ⟨[], [15.5], [], [0]⟩) = some res ∧
      res.priority = "MEDIUM" := by
  obtain ⟨res, hres, -, -, -, -, -, hmed, -⟩ :=
    C3_brightness_priority_tiers ⟨[], [15.5], [], [0]⟩ (by norm_num)
  exact ⟨res, hres, hmed (by norm_num [listMean])⟩

/-- C8: `analyze_brightness` on a present light curve yields priority
UNKNOWN exactly when the r band is empty; then the r mean, min and std
are all NaN (`none`); a non-empty r band yields the deterministic
threshold priority of the r-band mean. -/
theorem C8_brightness_unknown_invariant (lc : LightCurve) (res : BrightnessResult)
    (h : analyze_brightness (some lc) = some res) :
    (res.priority = "UNKNOWN" ↔ lc.r = []) ∧
    (lc.r = [] → res.r_mean = none ∧ res.r_min = none ∧ res.r_std = none) ∧
    (lc.r ≠ [] → res.priority = priorityOf (listMean lc.r)) := by
  simp only [analyze_brightness, Option.some.injEq] at h
  subst h
  by_cases hr : lc.r = []
  · rw [hr]
    simp
  · have hlen : 0 < lc.r.length := List.length_pos.mpr hr
    refine ⟨?_, fun he => absurd he hr, fun _ => ?_⟩
    · show (if 0 < lc.r.length then priorityOf (listMean lc.r) else "UNKNOWN")
          = "UNKNOWN" ↔ lc.r = []
      rw [if_pos hlen]
      exact iff_of_false (priorityOf_ne_unknown _) hr
    · show (if 0 < lc.r.length then priorityOf (listMean lc.r) else "UNKNOWN")
          = priorityOf (listMean lc.r)
      exact if_pos hlen

/-- C8 witness: the empty light curve takes the UNKNOWN branch with all
r statistics absent, and a one-sample bright curve takes the threshold
branch. -/
theorem C8_brightness_unknown_invariant_witness :
    ∃ res, analyze_brightness (some ⟨[], [], [], []⟩) = some res ∧
      res.priority = "UNKNOWN" ∧ res.r_mean = none ∧ res.r_min = none ∧
      res.r_std = none := by
  refine ⟨_, rfl, ?_⟩
  have h := C8_brightness_unknown_invariant ⟨[], [], [], []⟩ _ rfl
  obtain ⟨hu, hn, -⟩ := h
  obtain ⟨h1, h2, h3⟩ := hn rfl
  exact ⟨hu.mpr rfl, h1, h2, h3⟩

/-- C6: `analyze_color_evolution` yields an absent result exactly when a
band has fewer than 3 samples or the bands' time-span intersection is
shorter than 100 days; whenever neither holds a result is produced (the
interpolation step of the embedding is total, matching that scipy's
linear `interp1d` on ≥3 points raises nothing, so the source's
`try/except` guard has no reachable failure case). -/
theorem C6_color_absent_iff (lc : LightCurve) :
    analyze_color_evolution none = none ∧
    (analyze_color_evolution (some lc) = none ↔
      (lc.g.length < 3 ∨ lc.r.length < 3 ∨
        commonEnd lc - commonStart lc < 100)) := by
  refine ⟨rfl, ?_⟩
  simp only [analyze_color_evolution]
  split_ifs with h1 h2
  · exact iff_of_true rfl (by tauto)
  · exact iff_of_true rfl (by tauto)
  · exact iff_of_false (by simp) (by tauto)

/-- C10: the synthetic light curve depends on the object name only — the
same name with arbitrarily different (ra, dec) pairs produces identical
output, because the seed and every generated quantity derive from the
name alone and the position parameters are never used. -/
theorem C10_synthetic_ignores_position (M : NumpyModel) (object_name : String)
    (ra dec ra2 dec2 : ℚ) :
    _generate_synthetic_lc M object_name ra dec
      = _generate_synthetic_lc M object_name ra2 dec2 := rfl

/-- C9: with no live network data, two light-curve acquisitions whose
object identifiers hash to the same seed (in particular two calls with
the same identifier) return identical synthetic light curves — same
per-band sample counts, timestamps and magnitudes. -/
theorem C9_acquisition_reproducible (M : NumpyModel) (name1 name2 : String)
    (ra1 dec1 ra2 dec2 : ℚ) (h : seedOf M name1 = seedOf M name2) :
    query_ztf_lightcurve M none ra1 dec1 name1
      = query_ztf_lightcurve M none ra2 dec2 name2 := by
  simp only [query_ztf_lightcurve, _generate_synthetic_lc, h]

/-- C9 witness: a concrete numpy model and one identifier queried twice
at different sky positions give the same light curve. -/
theorem C9_acquisition_reproducible_witness :
    query_ztf_lightcurve
        ⟨fun s => s.length, fun _ _ _ _ => 0, fun _ _ _ _ _ => 0,
          fun _ _ _ _ _ => 0, fun q => q, 3⟩ none 10 20 "ZTF-J0001"
      = query_ztf_lightcurve
        ⟨fun s => s.length, fun _ _ _ _ => 0, fun _ _ _ _ _ => 0,
          fun _ _ _ _ _ => 0, fun q => q, 3⟩ none 30 40 "ZTF-J0001" :=
  C9_acquisition_reproducible _ "ZTF-J0001" "ZTF-J0001" 10 20 30 40 rfl

/-- C1: `analyze_fading` is absent for every light curve with fewer than
5 r-band samples; with at least 5 it returns a result whose
`mag_change_1yr` is the least-squares slope of r magnitude versus time
times 365 and whose `is_fading` flag holds exactly when that change
exceeds 0.2; and 5 samples lying exactly on a line of slope 0.001 mag/day
(nondegenerate times) give `mag_change_1yr` = 0.365 and `is_fading`. -/
theorem C1_fading_contract :
    (∀ lc : LightCurve, lc.r.length < 5 → analyze_fading (some lc) = none) ∧
    (∀ lc : LightCurve, 5 ≤ lc.r.length →
      ∃ res, analyze_fading (some lc) = some res ∧
        res.mag_change_1yr = olsSlope lc.times_r lc.r * 365 ∧
        (res.is_fading = true ↔ 0.2 < res.mag_change_1yr)) ∧
    (∀ (t : List ℚ) (a : ℚ), t.length = 5 → olsDenom t ≠ 0 →
      ∃ res, analyze_fading (some ⟨[], t.map (fun x => a + (1/1000) * x), [], t⟩)
          = some res ∧
        res.mag_change_1yr = 0.365 ∧ res.is_fading = true) := by
  refine ⟨?_, ?_, ?_⟩
  · intro lc h
    simp only [analyze_fading]
    rw [if_pos h]
  · intro lc h
    refine ⟨⟨olsSlope lc.times_r lc.r, olsSlope lc.times_r lc.r * 365,
        decide (olsSlope lc.times_r lc.r * 365 > 0.2),
        fadingStatusOf (olsSlope lc.times_r lc.r), lc.r.length⟩, ?_, rfl, ?_⟩
    · simp only [analyze_fading]
      rw [if_neg (not_lt.mpr h)]
    · exact decide_eq_true_iff
  · intro t a hlen hD
    have hs : olsSlope t (t.map (fun x => a + (1/1000) * x)) = 1/1000 :=
      olsSlope_affine a (1/1000) t hD
    refine ⟨⟨olsSlope t (t.map (fun x => a + (1/1000) * x)),
        olsSlope t (t.map (fun x => a + (1/1000) * x)) * 365,
        decide (olsSlope t (t.map (fun x => a + (1/1000) * x)) * 365 > 0.2),
        fadingStatusOf (olsSlope t (t.map (fun x => a + (1/1000) * x))),
        (t.map (fun x => a + (1/1000) * x)).length⟩, ?_, ?_, ?_⟩
    · simp only [analyze_fading]
      rw [if_neg (by rw [List.length_map, hlen]; norm_num)]
    · show olsSlope t (t.map (fun x => a + (1/1000) * x)) * 365 = 0.365
      rw [hs]; norm_num
    · show decide (olsSlope t (t.map (fun x => a + (1/1000) * x)) * 365 > 0.2) = true
      exact decide_eq_true (by rw [hs]; norm_num)

/-- C1 witness: the empty light curve is rejected, and the concrete
5-sample line of slope 0.001 mag/day over times 0..400 yields
`mag_change_1yr` = 0.365 with the fading flag set. -/
theorem C1_fading_contract_witness :
    analyze_fading (some ⟨[], [], [], []⟩) = none ∧
    (∃ res, analyze_fading
        (some ⟨[], [0, 100, 200, 300, 400].map (fun x => 14 + (1/1000) * x), [],
          [0, 100, 200, 300, 400]⟩) = some res ∧
      res.mag_change_1yr = 0.365 ∧ res.is_fading = true) := by
  constructor
  · exact C1_fading_contract.1 ⟨[], [], [], []⟩ (by norm_num)
  · exact C1_fading_contract.2.2 [0, 100, 200, 300, 400] 14 (by norm_num)
      (by norm_num [olsDenom])

/-- C2: for every light curve with at least 3 samples in each band and a
band time-span intersection of at least 100 days, `analyze_color_evolution`
builds a grid of exactly min(count_g, count_r) evenly spaced times over
the intersection, linearly interpolates each band onto it, takes the
pointwise g−r color, fits a least-squares line of color against grid
time, reports `color_change_1yr` = slope·365, and flags significance
exactly when |color_change_1yr| > 0.1. -/
theorem C2_color_pipeline (lc : LightCurve)
    (hg : 3 ≤ lc.g.length) (hr : 3 ≤ lc.r.length)
    (hspan : 100 ≤ commonEnd lc - commonStart lc) :
    ∃ res, analyze_color_evolution (some lc) = some res ∧
      commonStart lc = max (listMin lc.times_g) (listMin lc.times_r) ∧
      commonEnd lc = min (listMax lc.times_g) (listMax lc.times_r) ∧
      commonGrid lc = linspace (commonStart lc) (commonEnd lc)
        (min lc.g.length lc.r.length) ∧
      (commonGrid lc).length = min lc.g.length lc.r.length ∧
      colorSeries lc = List.zipWith (fun a b => a - b)
        ((commonGrid lc).map (interpLinear lc.times_g lc.g))
        ((commonGrid lc).map (interpLinear lc.times_r lc.r)) ∧
      res.color_slope_per_day = olsSlope (commonGrid lc) (colorSeries lc) ∧
      res.color_change_1yr = olsSlope (commonGrid lc) (colorSeries lc) * 365 ∧
      (res.is_significant_evolution = true ↔ 0.1 < |res.color_change_1yr|) := by
  refine ⟨⟨listMean (colorSeries lc), olsSlope (commonGrid lc) (colorSeries lc),
      olsSlope (commonGrid lc) (colorSeries lc) * 365,
      decide (|olsSlope (commonGrid lc) (colorSeries lc) * 365| > 0.1),
      colorStatusOf (olsSlope (commonGrid lc) (colorSeries lc))
        (olsSlope (commonGrid lc) (colorSeries lc) * 365),
      commonEnd lc - commonStart lc⟩, ?_, rfl, rfl, rfl, linspace_length _ _ _, rfl,
    rfl, rfl, decide_eq_true_iff⟩
  simp only [analyze_color_evolution]
  rw [if_neg (by omega), if_neg (by linarith)]

/-- C2 witness: two 3-sample bands over a 200-day common span — constant
r at 14, g rising one magnitude per 100 days — produce a 3-point grid and
a significant reddening rate of 3.65 mag/yr. -/
theorem C2_color_pipeline_witness :
    ∃ res, analyze_color_evolution
        (some ⟨[14, 15, 16], [14, 14, 14], [0, 100, 200], [0, 100, 200]⟩)
          = some res ∧
      commonStart ⟨[14, 15, 16], [14, 14, 14], [0, 100, 200], [0, 100, 200]⟩
        = max (listMin [0, 100, 200]) (listMin [0, 100, 200]) ∧
      commonEnd ⟨[14, 15, 16], [14, 14, 14], [0, 100, 200], [0, 100, 200]⟩
        = min (listMax [0, 100, 200]) (listMax [0, 100, 200]) ∧
      commonGrid ⟨[14, 15, 16], [14, 14, 14], [0, 100, 200], [0, 100, 200]⟩
        = linspace
            (commonStart ⟨[14, 15, 16], [14, 14, 14], [0, 100, 200], [0, 100, 200]⟩)
            (commonEnd ⟨[14, 15, 16], [14, 14, 14], [0, 100, 200], [0, 100, 200]⟩)
            (min 3 3) ∧
      (commonGrid ⟨[14, 15, 16], [14, 14, 14], [0, 100, 200], [0, 100, 200]⟩).length
        = min 3 3 ∧
      colorSeries ⟨[14, 15, 16], [14, 14, 14], [0, 100, 200], [0, 100, 200]⟩
        = List.zipWith (fun a b => a - b)
          ((commonGrid ⟨[14, 15, 16], [14, 14, 14], [0, 100, 200], [0, 100, 200]⟩).map
            (interpLinear [0, 100, 200] [14, 15, 16]))
          ((commonGrid ⟨[14, 15, 16], [14, 14, 14], [0, 100, 200], [0, 100, 200]⟩).map
            (interpLinear [0, 100, 200] [14, 14, 14])) ∧
      res.color_slope_per_day = olsSlope
        (commonGrid ⟨[14, 15, 16], [14, 14, 14], [0, 100, 200], [0, 100, 200]⟩)
        (colorSeries ⟨[14, 15, 16], [14, 14, 14], [0, 100, 200], [0, 100, 200]⟩) ∧
      res.color_change_1yr = olsSlope
        (commonGrid ⟨[14, 15, 16], [14, 14, 14], [0, 100, 200], [0, 100, 200]⟩)
        (colorSeries ⟨[14, 15, 16], [14, 14, 14], [0, 100, 200], [0, 100, 200]⟩) * 365 ∧
      (res.is_significant_evolution = true ↔ 0.1 < |res.color_change_1yr|) :=
  C2_color_pipeline ⟨[14, 15, 16], [14, 14, 14], [0, 100, 200], [0, 100, 200]⟩
    (by norm_num) (by norm_num)
    (by norm_num [commonEnd, commonStart, listMin, listMax])

/-- C4 (amended): for every light curve with at least 5 r-band samples the
status is STABLE exactly when |slope| < 0.0001, the FADING label appears
exactly when slope > 0.0001, and the BRIGHTENING label exactly when
slope ≤ −0.0001 or slope = 0.0001 (the boundary slope +0.0001 falls
through the `elif slope > 0.0001` test); the labels embed the direction
only (they are fixed strings), and `mag_change_1yr` has the sign of the
slope. -/
theorem C4_fading_status_amended (lc : LightCurve) (res : FadingResult)
    (h : analyze_fading (some lc) = some res) :
    (res.status = "STABLE" ↔ |res.slope_mag_per_day| < 0.0001) ∧
    (res.status = fadingLabel ↔ 0.0001 < res.slope_mag_per_day) ∧
    (res.status = brighteningLabel ↔
      (res.slope_mag_per_day ≤ -0.0001 ∨ res.slope_mag_per_day = 0.0001)) ∧
    (0 < res.mag_change_1yr ↔ 0 < res.slope_mag_per_day) ∧
    (res.mag_change_1yr < 0 ↔ res.slope_mag_per_day < 0) := by
  simp only [analyze_fading] at h
  split_ifs at h
  rw [Option.some_inj] at h
  subst h
  refine ⟨fadingStatusOf_stable_iff _, fadingStatusOf_fading_iff _,
    fadingStatusOf_brightening_iff _, ?_, ?_⟩
  · show 0 < olsSlope lc.times_r lc.r * 365 ↔ 0 < olsSlope lc.times_r lc.r
    constructor <;> intro <;> linarith
  · show olsSlope lc.times_r lc.r * 365 < 0 ↔ olsSlope lc.times_r lc.r < 0
    constructor <;> intro <;> linarith

/-- C4 counterexample: five samples lying exactly on a line of slope
+0.0001 mag/day — positive and not inside the |slope| < 0.0001 dead zone —
get the BRIGHTENING status, not the FADING one the claim requires for
every such positive slope. -/
theorem C4_status_boundary_counterexample :
    analyze_fading (some ⟨[], [14, 14 + 1/100, 14 + 2/100, 14 + 3/100, 14 + 4/100],
        [], [0, 100, 200, 300, 400]⟩)
      = some ⟨1/10000, 365/10000, false, brighteningLabel, 5⟩ ∧
    (0 : ℚ) < 1/10000 ∧ ¬(|(1/10000 : ℚ)| < 0.0001) ∧
    brighteningLabel ≠ fadingLabel := by
  have hs : olsSlope [0, 100, 200, 300, 400]
      [14, 14 + 1/100, 14 + 2/100, 14 + 3/100, 14 + 4/100] = 1/10000 := by
    norm_num [olsSlope, List.zip]
  have hst : fadingStatusOf (1/10000) = brighteningLabel :=
    (fadingStatusOf_brightening_iff _).mpr (Or.inr (by norm_num))
  refine ⟨?_, by norm_num,
    by rw [abs_of_pos (by norm_num : (0 : ℚ) < 1/10000)]; norm_num, by decide⟩
  simp only [analyze_fading]
  rw [if_neg (by norm_num), hs, hst]
  norm_num [decide_eq_false_iff_not]

/-- C4 witness: a line of slope 0.01 mag/day over five samples is
classified FADING, with the amended status equivalences holding at that
concrete result. -/
theorem C4_fading_status_amended_witness :
    analyze_fading (some ⟨[], [14, 15, 16, 17, 18], [], [0, 100, 200, 300, 400]⟩)
      = some ⟨1/100, 365/100, true, fadingLabel, 5⟩ ∧
    ((⟨1/100, 365/100, true, fadingLabel, 5⟩ : FadingResult).status = fadingLabel ↔
      0.0001 < (⟨1/100, 365/100, true, fadingLabel, 5⟩ : FadingResult).slope_mag_per_day) := by
  have hs : olsSlope [0, 100, 200, 300, 400] [14, 15, 16, 17, 18] = 1/100 := by
    norm_num [olsSlope, List.zip]
  have hst : fadingStatusOf (1/100) = fadingLabel :=
    (fadingStatusOf_fading_iff _).mpr (by norm_num)
  have hEq : analyze_fading
      (some ⟨[], [14, 15, 16, 17, 18], [], [0, 100, 200, 300, 400]⟩)
      = some ⟨1/100, 365/100, true, fadingLabel, 5⟩ := by
    simp only [analyze_fading]
    rw [if_neg (by norm_num), hs, hst]
    norm_num [decide_eq_true_eq]
  exact ⟨hEq, (C4_fading_status_amended _ _ hEq).2.1⟩

/-- C5 (amended): for every color result actually produced, the status is
STABLE exactly when |slope| < 0.0001, REDDENING exactly when
slope > 0.0001, and BLUEING exactly when slope ≤ −0.0001 or
slope = 0.0001 (the boundary slope +0.0001 falls through the
`elif color_slope > 0.0001` test); the non-stable labels carry the
annualized color change. -/
theorem C5_color_status_amended (lc : LightCurve) (res : ColorEvolutionResult)
    (h : analyze_color_evolution (some lc) = some res) :
    (res.status = ColorStatus.STABLE ↔ |res.color_slope_per_day| < 0.0001) ∧
    (res.status = ColorStatus.REDDENING |res.color_change_1yr| ↔
      0.0001 < res.color_slope_per_day) ∧
    (res.status = ColorStatus.BLUEING res.color_change_1yr ↔
      (res.color_slope_per_day ≤ -0.0001 ∨ res.color_slope_per_day = 0.0001)) := by
  simp only [analyze_color_evolution] at h
  split_ifs at h
  rw [Option.some_inj] at h
  subst h
  exact ⟨colorStatusOf_stable_iff _ _, colorStatusOf_reddening_iff _ _,
    colorStatusOf_blueing_iff _ _⟩

/-- C5 counterexample: a color series of slope exactly +0.0001 per day —
positive and not inside the dead zone — is labelled BLUEING, not the
REDDENING the claim requires for every such positive slope. -/
theorem C5_status_boundary_counterexample :
    analyze_color_evolution (some ⟨[14, 14 + 1/100, 14 + 2/100], [14, 14, 14],
        [0, 100, 200], [0, 100, 200]⟩)
      = some ⟨1/100, 1/10000, 365/10000, false, ColorStatus.BLUEING (365/10000), 200⟩ ∧
    (0 : ℚ) < 1/10000 ∧ ¬(|(1/10000 : ℚ)| < 0.0001) := by
  have hgrid : commonGrid ⟨[14, 14 + 1/100, 14 + 2/100], [14, 14, 14],
      [0, 100, 200], [0, 100, 200]⟩ = [0, 100, 200] := by
    norm_num [commonGrid, commonStart, commonEnd, listMin, listMax, min_def,
      max_def, linspace, List.range_succ]
  have hcolor : colorSeries ⟨[14, 14 + 1/100, 14 + 2/100], [14, 14, 14],
      [0, 100, 200], [0, 100, 200]⟩ = [0, 1/100, 2/100] := by
    rw [colorSeries, hgrid]
    norm_num [interpLinear, sortPts, insertPt, interpPoints, List.zip]
  have hslope : olsSlope [0, 100, 200] [0, 1/100, 2/100] = 1/10000 := by
    norm_num [olsSlope, List.zip]
  have hmean : listMean [0, 1/100, 2/100] = 1/100 := by norm_num [listMean]
  have hst : colorStatusOf (1/10000) (1/10000 * 365)
      = ColorStatus.BLUEING (1/10000 * 365) :=
    (colorStatusOf_blueing_iff _ _).mpr (Or.inr (by norm_num))
  have hbase : commonEnd ⟨[14, 14 + 1/100, 14 + 2/100], [14, 14, 14],
        [0, 100, 200], [0, 100, 200]⟩
      - commonStart ⟨[14, 14 + 1/100, 14 + 2/100], [14, 14, 14],
        [0, 100, 200], [0, 100, 200]⟩ = 200 := by
    norm_num [commonStart, commonEnd, listMin, listMax, min_def, max_def]
  refine ⟨?_, by norm_num,
    by rw [abs_of_pos (by norm_num : (0 : ℚ) < 1/10000)]; norm_num⟩
  simp only [analyze_color_evolution]
  rw [if_neg (by norm_num), if_neg (by rw [hbase]; norm_num)]
  rw [hgrid, hcolor, hslope, hmean, hst, hbase]
  norm_num [decide_eq_false_iff_not]
  rw [abs_of_pos (by norm_num : (0 : ℚ) < 73/2000)]
  norm_num

/-- C5 witness: a color series rising a full magnitude per 100 days is
labelled REDDENING, with the amended equivalence holding at that concrete
result. -/
theorem C5_color_status_amended_witness :
    analyze_color_evolution (some ⟨[14, 15, 16], [14, 14, 14],
        [0, 100, 200], [0, 100, 200]⟩)
      = some ⟨1, 1/100, 365/100, true, ColorStatus.REDDENING (365/100), 200⟩ ∧
    ((⟨1, 1/100, 365/100, true, ColorStatus.REDDENING (365/100), 200⟩ :
        ColorEvolutionResult).status
      = ColorStatus.REDDENING |(⟨1, 1/100, 365/100, true,
          ColorStatus.REDDENING (365/100), 200⟩ :
            ColorEvolutionResult).color_change_1yr| ↔
      0.0001 < (⟨1, 1/100, 365/100, true, ColorStatus.REDDENING (365/100), 200⟩ :
        ColorEvolutionResult).color_slope_per_day) := by
  have hgrid : commonGrid ⟨[14, 15, 16], [14, 14, 14],
      [0, 100, 200], [0, 100, 200]⟩ = [0, 100, 200] := by
    norm_num [commonGrid, commonStart, commonEnd, listMin, listMax, min_def,
      max_def, linspace, List.range_succ]
  have hcolor : colorSeries ⟨[14, 15, 16], [14, 14, 14],
      [0, 100, 200], [0, 100, 200]⟩ = [0, 1, 2] := by
    rw [colorSeries, hgrid]
    norm_num [interpLinear, sortPts, insertPt, interpPoints, List.zip]
  have hslope : olsSlope [0, 100, 200] [0, 1, 2] = 1/100 := by
    norm_num [olsSlope, List.zip]
  have hmean : listMean [(0 : ℚ), 1, 2] = 1 := by norm_num [listMean]
  have habs : |(1 : ℚ)/100 * 365| = 1/100 * 365 :=
    abs_of_pos (by norm_num)
  have hst : colorStatusOf (1/100) (1/100 * 365)
      = ColorStatus.REDDENING (365/100) := by
    have := (colorStatusOf_reddening_iff (1/100) (1/100 * 365)).mpr (by norm_num)
    rw [this, habs]
    norm_num
  have hbase : commonEnd ⟨[14, 15, 16], [14, 14, 14], [0, 100, 200], [0, 100, 200]⟩
      - commonStart ⟨[14, 15, 16], [14, 14, 14], [0, 100, 200], [0, 100, 200]⟩
      = 200 := by
    norm_num [commonStart, commonEnd, listMin, listMax, min_def, max_def]
  have hEq : analyze_color_evolution (some ⟨[14, 15, 16], [14, 14, 14],
        [0, 100, 200], [0, 100, 200]⟩)
      = some ⟨1, 1/100, 365/100, true, ColorStatus.REDDENING (365/100), 200⟩ := by
    simp only [analyze_color_evolution]
    rw [if_neg (by norm_num), if_neg (by rw [hbase]; norm_num)]
    rw [hgrid, hcolor, hslope, hmean, hst, hbase]
    norm_num [decide_eq_true_eq]
    rw [abs_of_pos (by norm_num : (0 : ℚ) < 73/20)]
    norm_num
  exact ⟨hEq, (C5_color_status_amended _ _ hEq).2.1⟩

/-- C7: `analyze_source` is absent exactly when the light-curve query
yields nothing (no partial record); otherwise it returns the assembled
record, in which each analyzer's fields are filled from that analyzer's
own output when present and from the fixed sentinels (`none` for NaN,
the UNKNOWN token, `false`) when absent — so one analyzer's absence
never disturbs the fields of the others. -/
theorem C7_orchestrator (query : ℚ → ℚ → String → Option LightCurve)
    (src : SourceRecord) :
    (analyze_source query src = none ↔
      query src.RAdeg src.DEdeg src.Objname = none) ∧
    (∀ lc, query src.RAdeg src.DEdeg src.Objname = some lc →
      analyze_source query src = some (assembleAnalysis src lc) ∧
      (∀ b, analyze_brightness (some lc) = some b →
        (assembleAnalysis src lc).r_mean = b.r_mean ∧
        (assembleAnalysis src lc).r_priority = b.priority) ∧
      (analyze_fading (some lc) = none →
        (assembleAnalysis src lc).fading_mag_per_year = none ∧
        (assembleAnalysis src lc).is_fading = false ∧
        (assembleAnalysis src lc).fading_status = "UNKNOWN") ∧
      (∀ f, analyze_fading (some lc) = some f →
        (assembleAnalysis src lc).fading_mag_per_year = some f.mag_change_1yr ∧
        (assembleAnalysis src lc).is_fading = f.is_fading ∧
        (assembleAnalysis src lc).fading_status = f.status) ∧
      (analyze_color_evolution (some lc) = none →
        (assembleAnalysis src lc).color_change_1yr = none ∧
        (assembleAnalysis src lc).is_reddening_bluing = false ∧
        (assembleAnalysis src lc).color_status = ColorStatus.UNKNOWN ∧
        (assembleAnalysis src lc).baseline_days = none) ∧
      (∀ c, analyze_color_evolution (some lc) = some c →
        (assembleAnalysis src lc).color_change_1yr = some c.color_change_1yr ∧
        (assembleAnalysis src lc).is_reddening_bluing = c.is_significant_evolution ∧
        (assembleAnalysis src lc).color_status = c.status ∧
        (assembleAnalysis src lc).baseline_days = some c.baseline_days)) := by
  constructor
  · unfold analyze_source
    cases hq : query src.RAdeg src.DEdeg src.Objname with
    | none => simp
    | some lc => simp
  · intro lc hq
    refine ⟨?_, ?_, ?_, ?_, ?_, ?_⟩
    · unfold analyze_source
      rw [hq]
    · intro b hb
      unfold assembleAnalysis
      rw [hb]
      exact ⟨rfl, rfl⟩
    · intro hf
      unfold assembleAnalysis
      rw [hf]
      exact ⟨rfl, rfl, rfl⟩
    · intro f hf
      unfold assembleAnalysis
      rw [hf]
      exact ⟨rfl, rfl, rfl⟩
    · intro hc
      unfold assembleAnalysis
      rw [hc]
      exact ⟨rfl, rfl, rfl, rfl⟩
    · intro c hc
      unfold assembleAnalysis
      rw [hc]
      exact ⟨rfl, rfl, rfl, rfl⟩

/-- C7 witness: a query returning nothing gives an absent analysis, and a
query returning an empty light curve gives a full record whose fading and
color fields are the UNKNOWN/false/NaN sentinels while the brightness
field is populated from the brightness analyzer. -/
theorem C7_orchestrator_witness :
    analyze_source (fun _ _ _ => none) ⟨"X", 0, 0, "II", none⟩ = none ∧
    analyze_source (fun _ _ _ => some ⟨[], [], [], []⟩) ⟨"X", 0, 0, "II", none⟩
      = some (assembleAnalysis ⟨"X", 0, 0, "II", none⟩ ⟨[], [], [], []⟩) ∧
    (assembleAnalysis ⟨"X", 0, 0, "II", none⟩ ⟨[], [], [], []⟩).fading_status
      = "UNKNOWN" ∧
    (assembleAnalysis ⟨"X", 0, 0, "II", none⟩ ⟨[], [], [], []⟩).is_fading = false ∧
    (assembleAnalysis ⟨"X", 0, 0, "II", none⟩ ⟨[], [], [], []⟩).color_status
      = ColorStatus.UNKNOWN ∧
    (assembleAnalysis ⟨"X", 0, 0, "II", none⟩ ⟨[], [], [], []⟩).r_priority
      = "UNKNOWN" := by
  have h1 := (C7_orchestrator (fun _ _ _ => none) ⟨"X", 0, 0, "II", none⟩).1.mpr rfl
  obtain ⟨hsome, hb, hfn, -, hcn, -⟩ :=
    (C7_orchestrator (fun _ _ _ => some ⟨[], [], [], []⟩)
      ⟨"X", 0, 0, "II", none⟩).2 ⟨[], [], [], []⟩ rfl
  have hfade : analyze_fading (some (⟨[], [], [], []⟩ : LightCurve)) = none := by
    simp [analyze_fading]
  have hcolor : analyze_color_evolution (some (⟨[], [], [], []⟩ : LightCurve))
      = none := by
    simp [analyze_color_evolution]
  obtain ⟨-, -, hfs⟩ := hfn hfade
  obtain ⟨-, -, hcs, -⟩ := hcn hcolor
  obtain ⟨-, hpr⟩ := hb _ rfl
  refine ⟨h1, hsome, hfs, (hfn hfade).2.1, hcs, ?_⟩
  rw [hpr]
  rfl
